import Mathlib

/-!
Shallow embedding of `src/python/main.py` of the DaysUntilNextEvent repository
(an LED countdown display for a Raspberry Pi Pico W), together with theorems
settling the frozen claims about its specification.

Modelling conventions:
* Python integers become `Int` (counters that are obviously non-negative become `Nat`).
* Python floats become `ℚ`; `int(...)` truncation toward zero is `pyInt`.
  Transcendental values (`math.sin`, `math.exp`) are irrational, so the value of
  `math.sin(phase)` (resp. the function `math.exp`) is passed to the embedded
  renderer as an explicit argument; no proved claim depends on those values.
* The NeoPixel buffer becomes a `List` of RGB triples; `set_pixel`/`get_pixel`
  reproduce the bounds guards of `LEDStripController`.
* `random.choice([-1, 1])` draws become an explicit stream `rnd : Nat → Int`
  with a running index, and the daily random base color an explicit argument.
* `time.mktime` applied to a date at midnight is modelled as
  `days_from_civil · * 86400` (a civil-calendar-to-epoch-day conversion);
  only differences of such values are ever used by the source.
-/

namespace DaysUntil

/-- An RGB triple.  Channel values produced by `clamp` lie in `[0, 255]`. -/
abbrev Color := Int × Int × Int

/-- `COLOR_OFF` constant of `main.py`. -/
def COLOR_OFF : Color := (0, 0, 0)

/-- `CONSECUTIVE_READINGS_NEEDED` constant of `main.py` (debounce threshold). -/
def CONSECUTIVE_READINGS_NEEDED : Nat := 25

/-- Python `int(...)` applied to a (rationally modelled) float: truncation toward zero. -/
def pyInt (q : ℚ) : Int := q.num.tdiv (q.den : Int)

/-- `ColorUtils.clamp` with its default bounds `min_val = 0`, `max_val = 255`
(the only way the source ever calls it). -/
def clamp (value : ℚ) : Int := max (min (pyInt value) 255) 0

/-- `ColorUtils.lighten`: multiply each channel by `factor`, then clamp. -/
def lighten (color : Color) (factor : ℚ) : Color :=
  (clamp ((color.1 : ℚ) * factor),
   clamp ((color.2.1 : ℚ) * factor),
   clamp ((color.2.2 : ℚ) * factor))

/-- Python `range(a, b)` (step 1) over integers. -/
def rangeAsc (a b : Int) : List Int :=
  (List.range (b - a).toNat).map (fun (k : Nat) => a + (k : Int))

/-- Python `range(a, b, -1)` (step -1) over integers: `a, a-1, ..., b+1`. -/
def rangeDesc (a b : Int) : List Int :=
  (List.range (a - b).toNat).map (fun (k : Nat) => a - (k : Int))

/-- The pixel buffer held by `LEDStripController` (`self.np`). -/
abbrev Buffer := List Color

/-- `LEDStripController.set_pixel`: writes only when `0 <= index < num_pixels`. -/
def set_pixel (n : Nat) (buf : Buffer) (index : Int) (color : Color) : Buffer :=
  if 0 ≤ index ∧ index < (n : Int) then buf.set index.toNat color else buf

/-- `LEDStripController.get_pixel`: returns `COLOR_OFF` when out of range. -/
def get_pixel (n : Nat) (buf : Buffer) (index : Int) : Color :=
  if 0 ≤ index ∧ index < (n : Int) then buf.getD index.toNat COLOR_OFF else COLOR_OFF

/-- `LEDStripController.clear` / `np.fill(COLOR_OFF)`: the all-off buffer. -/
def clearBuffer (n : Nat) : Buffer := List.replicate n COLOR_OFF

/-- `LightSensor`: the debounced light/dark sensor state (the ADC handle and
threshold comparison live in hardware; the boolean sample is the input). -/
structure LightSensor where
  consecutive_needed : Nat
  consecutive_dark_count : Nat
  consecutive_light_count : Nat
deriving DecidableEq

/-- A freshly constructed `LightSensor` (both counters zero). -/
def LightSensor.init (needed : Nat) : LightSensor := ⟨needed, 0, 0⟩

/-- `LightSensor.update`, the sample `is_dark = reading > threshold` taken as input.
Returns the new sensor state and the `(consistent_dark, consistent_light)` flags. -/
def LightSensor.update (s : LightSensor) (is_dark : Bool) : LightSensor × Bool × Bool :=
  let s2 : LightSensor :=
    if is_dark then ⟨s.consecutive_needed, s.consecutive_dark_count + 1, 0⟩
    else ⟨s.consecutive_needed, 0, s.consecutive_light_count + 1⟩
  (s2, decide (s2.consecutive_dark_count ≥ s2.consecutive_needed),
       decide (s2.consecutive_light_count ≥ s2.consecutive_needed))

/-- Feed a list of samples to the sensor, one `update` per sample. -/
def LightSensor.run (s : LightSensor) (samples : List Bool) : LightSensor :=
  samples.foldl (fun st b => (st.update b).1) s

/-- `DateUtils.is_within_time_range`, on parsed `(hour, minute)` pairs
(the source parses the `"HH:MM"` strings with `map(int, s.split(':'))`). -/
def is_within_time_range (start_hm end_hm current_hm : Nat × Nat) : Bool :=
  let start_minutes := start_hm.1 * 60 + start_hm.2
  let end_minutes := end_hm.1 * 60 + end_hm.2
  let current_minutes := current_hm.1 * 60 + current_hm.2
  if start_minutes ≤ end_minutes then
    decide (start_minutes ≤ current_minutes ∧ current_minutes ≤ end_minutes)
  else
    decide (current_minutes ≥ start_minutes ∨ current_minutes ≤ end_minutes)

/-- Day number of a civil `(year, month, day)` date relative to 1970-01-01
(standard civil-from-days algorithm).  Models the platform `time.mktime`
evaluated at midnight, up to the fixed factor 86400 used below. -/
def days_from_civil (date : Int × Int × Int) : Int :=
  let y0 := date.1
  let m := date.2.1
  let d := date.2.2
  let y := if m ≤ 2 then y0 - 1 else y0
  let era := (if 0 ≤ y then y else y - 399).fdiv 400
  let yoe := y - era * 400
  let mp := (m + 9) % 12
  let doy := (153 * mp + 2).fdiv 5 + d - 1
  let doe := yoe * 365 + yoe.fdiv 4 - yoe.fdiv 100 + doy
  era * 146097 + doe - 719468

/-- `DateUtils.days_between`: `time.mktime` of each date at midnight, difference
floor-divided by 86400.  Midnight epoch seconds are `days_from_civil · * 86400`. -/
def days_between (date1 date2 : Int × Int × Int) : Int :=
  let date1_seconds := days_from_civil date1 * 86400
  let date2_seconds := days_from_civil date2 * 86400
  (date2_seconds - date1_seconds).fdiv 86400

/-- `EventSettings` (the configuration fetched by `SettingsAPI.fetch_settings`).
Color and date strings are stored here in parsed form (`ColorUtils.string_to_rgb`
and `DateUtils.string_to_date_tuple` are deterministic parsers); `from_pi`,
`auto_update` and `update_branch` concern only the update/orientation glue, and
the latter two (never read by the countdown core) are omitted. -/
structure EventSettings where
  important_date : Int × Int × Int
  start_from_day : Int × Int × Int
  primary_color : Color
  secondary_color : Color
  use_custom_colors : Bool
  start_time : Nat × Nat
  end_time : Nat × Nat
  from_pi : Bool
  is_reverse : Bool
  with_marker : Bool
  marker_color : Color
  flash_speed : ℚ
deriving DecidableEq

/-- `CountdownState` of `main.py`. -/
structure CountdownState where
  current_date : Int × Int × Int
  settings : EventSettings
  days_remaining : Int
  countdown_length : Int
  base_color : ℚ × ℚ × ℚ
  animation_phase : ℚ
  is_flashing : Bool
  swap_phase : Bool
  last_swap_ms : Int
deriving DecidableEq

/-- `CountdownState.__init__`: `days_remaining = days_between(current, important)`,
`countdown_length = abs(days_between(start_from_day, important))`, a fresh random
base color (taken as an argument), phase 0, `is_flashing = True` (hardcoded),
`swap_phase = False`, and the current `time.ticks_ms()` value (an argument). -/
def CountdownState.new (current_date : Int × Int × Int) (settings : EventSettings)
    (base : ℚ × ℚ × ℚ) (now_ms : Int) : CountdownState :=
  { current_date := current_date
    settings := settings
    days_remaining := days_between current_date settings.important_date
    countdown_length := |days_between settings.start_from_day settings.important_date|
    base_color := base
    animation_phase := 0
    is_flashing := true
    swap_phase := false
    last_swap_ms := now_ms }

/-- `CountdownState.update_animation_phase` sets
`phase := (phase + ANIMATION_SPEED) % (2 * math.pi)`.  The modulus `2π` is
irrational, so the updated (real-valued) phase is supplied as an argument; no
claim proved in this file depends on its value. -/
def CountdownState.update_animation_phase (st : CountdownState) (new_phase : ℚ) :
    CountdownState :=
  { st with animation_phase := new_phase }

/-- `CountdownState.update_flash_phase` (the `time.ticks_ms` path): every
`flash_speed` seconds (non-positive intervals treated as 2000 ms) toggle
`swap_phase` and record the toggle time.  `time.ticks_diff` is modelled as
subtraction of the supplied millisecond clock value. -/
def CountdownState.update_flash_phase (st : CountdownState) (now_ms : Int) :
    CountdownState :=
  let interval0 := pyInt (st.settings.flash_speed * 1000)
  let interval_ms := if interval0 ≤ 0 then 2000 else interval0
  if now_ms - st.last_swap_ms ≥ interval_ms then
    { st with swap_phase := !st.swap_phase, last_swap_ms := now_ms }
  else st

/-- `flashing_group = 0 if math.sin(phase) >= 0 else 1` of
`AnimationEngine._render_countdown` (`sin_phase` stands for `math.sin(phase)`). -/
def flashing_group (sin_phase : ℚ) : Nat := if 0 ≤ sin_phase then 0 else 1

/-- The eased pulse and brightness multiplier of `_render_countdown`:
`raw = (sin(phase)+1)/2`, `pulse = raw²(3-2·raw)`, factor `1.0 + 0.35 · pulse`. -/
def lighten_factor (sin_phase : ℚ) : ℚ :=
  let raw := (sin_phase + 1) / 2
  let pulse := raw * raw * (3 - 2 * raw)
  1 + (35 / 100) * pulse

/-- The iterated day range of `_render_countdown`:
`range(countdown_length, days_remaining - 1, -1)` when not reversed,
`range(days_remaining - 1, -1, -1)` when reversed. -/
def day_range (is_reverse : Bool) (countdown_length days_remaining : Int) : List Int :=
  if !is_reverse then rangeDesc countdown_length (days_remaining - 1)
  else rangeDesc (days_remaining - 1) (-1)

/-- `block_size = self.led.num_pixels // countdown_length` of `_render_countdown`.
Python raises `ZeroDivisionError` when `countdown_length = 0`; the embedding is
total (`fdiv · 0 = 0`). -/
def countdown_block_size (n : Nat) (countdown_length : Int) : Int :=
  ((n : Int)).fdiv countdown_length

/-- The pixel span `[block_min, block_max)` computed by `_render_countdown` for a
day index: anchored at the strip end (`from_pi = false`) or start, with the edge
block (`day_index <= 1`) extended to the strip boundary. -/
def block_bounds (n : Nat) (countdown_length block_size day_index : Int)
    (from_pi : Bool) : Int × Int :=
  if !from_pi then
    let block_max := (n : Int) - (countdown_length - day_index) * block_size
    let block_min := if 1 < day_index then block_max - block_size else 0
    (block_min, block_max)
  else
    let block_min := (countdown_length - day_index) * block_size
    let block_max := if 1 < day_index then block_min + block_size else (n : Int)
    (block_min, block_max)

/-- The first pixel of a block in the marker pass of `_render_countdown`:
`num_pixels - (block+1) * block_size` (strip anchored at end) or
`block * block_size` (anchored at start). -/
def marker_block_start (n : Nat) (block_size : Int) (from_pi : Bool) (block : Int) : Int :=
  if !from_pi then (n : Int) - (block + 1) * block_size else block * block_size

/-- One step of the marker loop: mark a block's first pixel with the marker color
when it lies outside the currently drawn span `[bmin, bmax)`. -/
def marker_step (n : Nat) (st : CountdownState) (block_size bmin bmax : Int)
    (bb : Buffer) (block : Int) : Buffer :=
  let block_start := marker_block_start n block_size st.settings.from_pi block
  if block_start < bmin ∨ block_start ≥ bmax then
    set_pixel n bb block_start st.settings.marker_color
  else bb

/-- The `if settings.with_marker` loop of `_render_countdown`: run `marker_step`
over `range(countdown_length)`. -/
def marker_pass (n : Nat) (st : CountdownState) (block_size bmin bmax : Int)
    (buf : Buffer) : Buffer :=
  (rangeAsc 0 st.countdown_length).foldl (marker_step n st block_size bmin bmax) buf

/-- The per-pixel body of `_render_countdown`.  `acc` carries the buffer and the
running index into the random stream `rnd` (the custom-color branch draws no
random numbers; the drift branch draws two per pixel). -/
def render_pixel (n : Nat) (st : CountdownState) (fg : Nat) (lf : ℚ)
    (day_index : Int) (rnd : Nat → Int) (acc : Buffer × Nat) (pixel : Int) :
    Buffer × Nat :=
  if st.settings.use_custom_colors then
    let p0 : Bool := day_index % 2 == 0
    let is_primary_block : Bool := if st.swap_phase then !p0 else p0
    let c0 := if is_primary_block then st.settings.primary_color
              else st.settings.secondary_color
    let color :=
      if st.is_flashing &&
          ((fg == 0 && is_primary_block) || (fg == 1 && !is_primary_block)) then
        lighten c0 lf
      else c0
    (set_pixel n acc.1 pixel color, acc.2)
  else
    let variation_1 := (st.countdown_length + 1 - day_index) * rnd acc.2
    let variation_2 := (st.countdown_length + 1 - day_index) * rnd (acc.2 + 1)
    let prev := get_pixel n acc.1 pixel
    let r := clamp ((prev.1 : ℚ) + (variation_1 : ℚ))
    let g := clamp ((prev.2.1 : ℚ) - (variation_1 : ℚ))
    let b := clamp ((prev.2.2 : ℚ) + (variation_2 : ℚ))
    let c1 : Color := (r, g, b)
    let p0 : Bool := day_index % 2 == 0
    let is_primary_block : Bool := if st.swap_phase then !p0 else p0
    let color :=
      if st.is_flashing &&
          ((fg == 0 && is_primary_block) || (fg == 1 && !is_primary_block)) then
        lighten c1 lf
      else c1
    (set_pixel n acc.1 pixel color, acc.2 + 2)

/-- The per-day body of `_render_countdown`: compute the block span, fill it
pixel by pixel, then (when markers are enabled) run the marker loop. -/
def day_fill (n : Nat) (st : CountdownState) (fg : Nat) (lf : ℚ) (rnd : Nat → Int)
    (block_size : Int) (acc : Buffer × Nat) (day_index : Int) : Buffer × Nat :=
  let bspan := block_bounds n st.countdown_length block_size day_index st.settings.from_pi
  let acc2 := (rangeAsc bspan.1 bspan.2).foldl (render_pixel n st fg lf day_index rnd) acc
  if st.settings.with_marker then
    (marker_pass n st block_size bspan.1 bspan.2 acc2.1, acc2.2)
  else acc2

/-- `AnimationEngine._render_countdown` as a buffer transformer.
`sin_phase` stands for `math.sin(self.state.animation_phase)`. -/
def render_countdown (n : Nat) (st : CountdownState) (sin_phase : ℚ)
    (rnd : Nat → Int) (buf : Buffer) : Buffer :=
  let fg := flashing_group sin_phase
  let lf := lighten_factor sin_phase
  let block_size := countdown_block_size n st.countdown_length
  ((day_range st.settings.is_reverse st.countdown_length st.days_remaining).foldl
    (day_fill n st fg lf rnd block_size) (buf, 0)).1

/-- `AnimationEngine._render_breathing`.  `sin_phase` and `sin_phase_pi` stand for
`math.sin(phase)` and `math.sin(phase + math.pi)`; `expF` for `math.exp`. -/
def render_breathing (n : Nat) (st : CountdownState) (sin_phase sin_phase_pi : ℚ)
    (expF : ℚ → ℚ) (buf : Buffer) : Buffer :=
  (rangeAsc 0 (n : Int)).foldl
    (fun b i =>
      let pixel_index := if st.settings.from_pi then (n : Int) - 1 - i else i
      let brightness := 32 * (1 + 4 * (sin_phase_pi + 1)) *
        expF (-(((n : ℚ) / 2 - (i : ℚ)) ^ 2) / (1 + 20 * (sin_phase + 1)) ^ 2)
      let color : Color :=
        (clamp (st.base_color.1 * brightness), clamp (st.base_color.2.1 * brightness),
         clamp (st.base_color.2.2 * brightness))
      set_pixel n b pixel_index color)
    buf

/-- The mode selection of `AnimationEngine.render`:
`true` = countdown mode (`days_remaining <= countdown_length`), `false` = breathing. -/
def render_mode (st : CountdownState) : Bool :=
  st.days_remaining ≤ st.countdown_length

/-- `AnimationEngine.render`: dispatch on `render_mode` (the `self.led.write()`
call pushes the buffer to hardware and does not change it). -/
def render (n : Nat) (st : CountdownState) (sin_phase sin_phase_pi : ℚ)
    (expF : ℚ → ℚ) (rnd : Nat → Int) (buf : Buffer) : Buffer :=
  if render_mode st then render_countdown n st sin_phase rnd buf
  else render_breathing n st sin_phase sin_phase_pi expF buf

/-- `CountdownApplication._refresh_settings`: the fetch results of
`TimeAPI.get_local_date` and `SettingsAPI.fetch_settings` are the `Option`
inputs; a failed fetch (`none`) keeps the previous `CountdownState`, a
successful one unconditionally builds a fresh state from the new data. -/
def refresh_settings (st : CountdownState) (fetched_date : Option (Int × Int × Int))
    (fetched_settings : Option EventSettings) (base : ℚ × ℚ × ℚ) (now_ms : Int) :
    CountdownState :=
  match fetched_date with
  | none => st
  | some d =>
    match fetched_settings with
    | none => st
    | some s => CountdownState.new d s base now_ms

/-- The controller state owned by `CountdownApplication` that a main-loop tick
reads and writes: the countdown state, the debouncer, the LED buffer and the
iteration counter. -/
structure AppState where
  countdown_state : CountdownState
  sensor : LightSensor
  buffer : Buffer
  iteration_count : Nat
deriving DecidableEq

/-- The per-tick external inputs of `_main_loop_iteration`: the raw sensor
sample, the offset-adjusted local time of day (`adjust_time_with_offset` applied
to `time.localtime()`), the millisecond clock, the externally computed new
animation phase and transcendental values (see `CountdownState.update_animation_phase`,
`render`), the random stream, and the fetch results used on a refresh. -/
structure TickInput where
  is_dark : Bool
  adjusted_hm : Nat × Nat
  now_ms : Int
  new_phase : ℚ
  sin_phase : ℚ
  sin_phase_pi : ℚ
  expF : ℚ → ℚ
  rnd : Nat → Int
  fetched_date : Option (Int × Int × Int)
  fetched_settings : Option EventSettings
  fetched_base : ℚ × ℚ × ℚ

/-- What a tick did to the strip: invoked `AnimationEngine.render`, blanked it
(`led_controller.clear()`), or left the buffer untouched. -/
inductive TickAction where
  | rendered : TickAction
  | blanked : TickAction
  | untouched : TickAction
deriving DecidableEq

/-- `CountdownApplication._main_loop_iteration`: advance the animation and flash
phases, debounce the sensor sample, test the time window, then render / blank /
leave the strip per the window and the debounced flags; finally refresh the
settings when `consistent_light` holds inside the window. -/
def main_loop_iteration (n : Nat) (app : AppState) (inp : TickInput) :
    AppState × TickAction :=
  let st1 := app.countdown_state.update_animation_phase inp.new_phase
  let st2 := st1.update_flash_phase inp.now_ms
  let upd := app.sensor.update inp.is_dark
  let consistent_dark := upd.2.1
  let consistent_light := upd.2.2
  let in_time_range :=
    is_within_time_range st2.settings.start_time st2.settings.end_time inp.adjusted_hm
  let ba : Buffer × TickAction :=
    if in_time_range then
      if consistent_dark then
        (render n st2 inp.sin_phase inp.sin_phase_pi inp.expF inp.rnd app.buffer,
         TickAction.rendered)
      else if consistent_light then (clearBuffer n, TickAction.blanked)
      else (app.buffer, TickAction.untouched)
    else (clearBuffer n, TickAction.blanked)
  let st3 :=
    if consistent_light && in_time_range then
      refresh_settings st2 inp.fetched_date inp.fetched_settings inp.fetched_base inp.now_ms
    else st2
  ({ countdown_state := st3, sensor := upd.1, buffer := ba.1,
     iteration_count := app.iteration_count + 1 }, ba.2)

/-! ### Concrete fixtures used by counterexamples and witnesses -/

/-- A concrete configuration: custom colors, anchored at the strip end, not
reversed, markers off, active window 17:00-23:00. -/
def exSettings : EventSettings :=
  { important_date := (2025, 12, 25)
    start_from_day := (2025, 12, 20)
    primary_color := (10, 20, 30)
    secondary_color := (40, 50, 60)
    use_custom_colors := true
    start_time := (17, 0)
    end_time := (23, 0)
    from_pi := false
    is_reverse := false
    with_marker := false
    marker_color := (255, 0, 255)
    flash_speed := 2 }

/-- `exSettings` with the marker pass enabled. -/
def exSettingsMarker : EventSettings := { exSettings with with_marker := true }

/-- A mid-countdown state: 3 days remaining out of a 5-day countdown. -/
def stMid : CountdownState :=
  { current_date := (2025, 12, 22), settings := exSettings,
    days_remaining := 3, countdown_length := 5, base_color := (0, 0, 0),
    animation_phase := 0, is_flashing := true, swap_phase := false, last_swap_ms := 0 }

/-- A state one day past the target date: `days_remaining = -1`. -/
def stPast : CountdownState :=
  { current_date := (2025, 12, 26), settings := exSettings,
    days_remaining := -1, countdown_length := 5, base_color := (0, 0, 0),
    animation_phase := 0, is_flashing := true, swap_phase := false, last_swap_ms := 0 }

/-- `stMid` with the marker pass enabled. -/
def stMidMarker : CountdownState := { stMid with settings := exSettingsMarker }

/-! ### C5 and C6: the sensor debouncer -/

/-- C5: for a fresh debouncer with threshold 25, 24 dark samples followed by one
light sample leave `consistent_dark = false`; 25 consecutive dark samples yield
`consistent_dark = true`; and the next light sample after those 25 yields
`consistent_dark = false` and `consistent_light = false`. -/
theorem c5_debouncer_threshold_behaviour :
    ((((LightSensor.init 25).run (List.replicate 24 true)).update false).2.1 = false) ∧
    ((((LightSensor.init 25).run (List.replicate 24 true)).update true).2.1 = true) ∧
    ((((LightSensor.init 25).run (List.replicate 25 true)).update false).2.1 = false ∧
     (((LightSensor.init 25).run (List.replicate 25 true)).update false).2.2 = false) := by
  decide

/-- Helper for C6: any sample sets one counter to zero, so the "at most one
counter nonzero" invariant is preserved by every `update` along a run. -/
theorem LightSensor.run_inv : ∀ (samples : List Bool) (s : LightSensor),
    (s.consecutive_dark_count = 0 ∨ s.consecutive_light_count = 0) →
    ((s.run samples).consecutive_dark_count = 0 ∨
     (s.run samples).consecutive_light_count = 0)
  | [], _, h => h
  | b :: rest, s, _ => by
    have h2 : ((s.update b).1.consecutive_dark_count = 0 ∨
        (s.update b).1.consecutive_light_count = 0) := by
      cases b <;> simp [LightSensor.update]
    exact LightSensor.run_inv rest (s.update b).1 h2

/-- C6: from a fresh debouncer, after any sequence of samples at most one of the
two consecutive counters is nonzero. -/
theorem c6_at_most_one_counter_nonzero (needed : Nat) (samples : List Bool) :
    ((LightSensor.init needed).run samples).consecutive_dark_count = 0 ∨
    ((LightSensor.init needed).run samples).consecutive_light_count = 0 :=
  LightSensor.run_inv samples (LightSensor.init needed) (Or.inl rfl)

/-! ### C7: the time-of-day range test -/

/-- C7: `is_within_time_range` is the inclusive range test when start ≤ end and
the midnight-wrapping disjunction when start > end; in particular 23:30 is
inside 22:00-06:00 and 12:00 is outside it. -/
theorem c7_time_range_characterisation (sh sm eh em ch cm : Nat) :
    (sh * 60 + sm ≤ eh * 60 + em →
      (is_within_time_range (sh, sm) (eh, em) (ch, cm) = true ↔
        (sh * 60 + sm ≤ ch * 60 + cm ∧ ch * 60 + cm ≤ eh * 60 + em))) ∧
    (eh * 60 + em < sh * 60 + sm →
      (is_within_time_range (sh, sm) (eh, em) (ch, cm) = true ↔
        (ch * 60 + cm ≥ sh * 60 + sm ∨ ch * 60 + cm ≤ eh * 60 + em))) ∧
    is_within_time_range (22, 0) (6, 0) (23, 30) = true ∧
    is_within_time_range (22, 0) (6, 0) (12, 0) = false := by
  refine ⟨?_, ?_, by decide, by decide⟩
  · intro h
    simp [is_within_time_range, h]
  · intro h
    have hc : ¬ (sh * 60 + sm ≤ eh * 60 + em) := by omega
    simp [is_within_time_range, hc]

/-- Witness for C7 at a concrete input (a 08:00-17:00 window tested at 09:00). -/
theorem c7_time_range_witness :
    is_within_time_range (8, 0) (17, 0) (9, 0) = true ↔
      (8 * 60 + 0 ≤ 9 * 60 + 0 ∧ 9 * 60 + 0 ≤ 17 * 60 + 0) :=
  (c7_time_range_characterisation 8 0 17 0 9 0).1 (by decide)

/-! ### C8: the countdown block partition at 100 pixels / 10 days -/

/-- C8: with 100 pixels and countdown length 10, for either orientation every
non-edge day block (`1 < day index ≤ 10`) spans exactly 10 pixels, and every
pixel of the strip lies in the span of some day block index in `[1, 10]`. -/
theorem c8_block_partition_100_10 :
    (∀ fp : Bool, ∀ i : Nat, i < 11 → 1 < i →
      (block_bounds 100 10 (countdown_block_size 100 10) (i : Int) fp).2 -
        (block_bounds 100 10 (countdown_block_size 100 10) (i : Int) fp).1 = 10) ∧
    (∀ fp : Bool, ∀ p : Nat, p < 100 → ∃ i : Nat, i < 11 ∧ 1 ≤ i ∧
      (block_bounds 100 10 (countdown_block_size 100 10) (i : Int) fp).1 ≤ (p : Int) ∧
      (p : Int) < (block_bounds 100 10 (countdown_block_size 100 10) (i : Int) fp).2) := by
  decide

/-- Witness for C8 at concrete inputs: day block 5 (end-anchored) spans 10
pixels, and pixel 42 lies in some day block. -/
theorem c8_block_partition_witness :
    ((block_bounds 100 10 (countdown_block_size 100 10) (5 : Int) false).2 -
      (block_bounds 100 10 (countdown_block_size 100 10) (5 : Int) false).1 = 10) ∧
    (∃ i : Nat, i < 11 ∧ 1 ≤ i ∧
      (block_bounds 100 10 (countdown_block_size 100 10) (i : Int) true).1 ≤ (42 : Int) ∧
      (42 : Int) < (block_bounds 100 10 (countdown_block_size 100 10) (i : Int) true).2) :=
  ⟨(c8_block_partition_100_10.1 false 5 (by decide) (by decide)),
   (c8_block_partition_100_10.2 true 42 (by decide))⟩

/-! ### C1: mode selection for a past target date -/

/-- C1 counterexample: with `days_remaining = -1` (target passed) the dispatch
`days_remaining <= countdown_length` of `AnimationEngine.render` selects
countdown mode, not breathing mode: `render` runs `render_countdown`, and e.g.
pixel 9 of a concrete 10-pixel strip receives the day-5 countdown block's
secondary color — the claim "negative remaining days selects breathing mode" is
false on the code. -/
theorem c1_counterexample_past_date_renders_countdown :
    stPast.days_remaining = -1 ∧
    render_mode stPast = true ∧
    (∀ (n : Nat) (sp spp : ℚ) (expF : ℚ → ℚ) (rnd : Nat → Int) (buf : Buffer),
      render n stPast sp spp expF rnd buf = render_countdown n stPast sp rnd buf) ∧
    get_pixel 10 (render 10 stPast 0 0 (fun _ => 0) (fun _ => 1)
      (List.replicate 10 (7, 7, 7))) 9 = stPast.settings.secondary_color := by
  refine ⟨rfl, rfl, fun n sp spp expF rnd buf => ?_, by decide⟩
  simp [render, show render_mode stPast = true from rfl]

/-- C1 amended: breathing mode is selected exactly when
`days_remaining > countdown_length`; any state with negative `days_remaining`
(and the always non-negative countdown length) therefore selects countdown
mode, so `render` reduces to `render_countdown`. -/
theorem c1_amended_negative_days_selects_countdown (st : CountdownState)
    (h1 : st.days_remaining < 0) (h2 : 0 ≤ st.countdown_length) :
    render_mode st = true ∧
    ∀ (n : Nat) (sp spp : ℚ) (expF : ℚ → ℚ) (rnd : Nat → Int) (buf : Buffer),
      render n st sp spp expF rnd buf = render_countdown n st sp rnd buf := by
  have hm : render_mode st = true := by
    simp only [render_mode, decide_eq_true_eq]
    omega
  exact ⟨hm, fun n sp spp expF rnd buf => by simp [render, hm]⟩

/-- Witness for C1's amended theorem at the concrete past-date state. -/
theorem c1_amended_witness :
    render_mode stPast = true ∧
    render 10 stPast 0 0 (fun _ => 0) (fun _ => 1) (clearBuffer 10) =
      render_countdown 10 stPast 0 (fun _ => 1) (clearBuffer 10) := by
  have h := c1_amended_negative_days_selects_countdown stPast (by decide) (by decide)
  exact ⟨h.1, h.2 10 0 0 (fun _ => 0) (fun _ => 1) (clearBuffer 10)⟩

/-! ### C2: (non-)purity of the renderer -/

/-- C2 counterexample: two renders from equal `CountdownState` (and equal
transcendental/random inputs) but different prior buffer contents produce
different pixel buffers — pixel 0 lies outside the drawn day blocks (days 5..3
of 5 occupy pixels 4..9) and keeps its prior value, so `render` is not a
function of `CountdownState` alone. -/
theorem c2_counterexample_prior_buffer_leaks :
    render 10 stMid 0 0 (fun _ => 0) (fun _ => 1) (List.replicate 10 (0, 0, 0)) ≠
      render 10 stMid 0 0 (fun _ => 0) (fun _ => 1)
        ((List.replicate 10 (0, 0, 0)).set 0 (9, 9, 9)) := by
  intro h
  have h0 : get_pixel 10 (render 10 stMid 0 0 (fun _ => 0) (fun _ => 1)
        (List.replicate 10 (0, 0, 0))) 0 =
      get_pixel 10 (render 10 stMid 0 0 (fun _ => 0) (fun _ => 1)
        ((List.replicate 10 (0, 0, 0)).set 0 (9, 9, 9))) 0 := by rw [h]
  have e1 : get_pixel 10 (render 10 stMid 0 0 (fun _ => 0) (fun _ => 1)
      (List.replicate 10 (0, 0, 0))) 0 = (0, 0, 0) := by decide
  have e2 : get_pixel 10 (render 10 stMid 0 0 (fun _ => 0) (fun _ => 1)
      ((List.replicate 10 (0, 0, 0)).set 0 (9, 9, 9))) 0 = (9, 9, 9) := by decide
  rw [e1, e2] at h0
  exact absurd h0 (by decide)

/-- Helper for C2: the per-pixel body ignores the random stream when custom
colors are enabled. -/
theorem render_pixel_rnd_congr (n : Nat) (st : CountdownState) (fg : Nat) (lf : ℚ)
    (d : Int) (rnd1 rnd2 : Nat → Int) (h : st.settings.use_custom_colors = true)
    (acc : Buffer × Nat) (p : Int) :
    render_pixel n st fg lf d rnd1 acc p = render_pixel n st fg lf d rnd2 acc p := by
  simp [render_pixel, h]

/-- Helper for C2: the pixel fold ignores the random stream when custom colors
are enabled. -/
theorem foldl_render_pixel_rnd_congr (n : Nat) (st : CountdownState) (fg : Nat)
    (lf : ℚ) (d : Int) (rnd1 rnd2 : Nat → Int)
    (h : st.settings.use_custom_colors = true) :
    ∀ (l : List Int) (acc : Buffer × Nat),
      l.foldl (render_pixel n st fg lf d rnd1) acc =
        l.foldl (render_pixel n st fg lf d rnd2) acc
  | [], _ => rfl
  | x :: xs, acc => by
    rw [List.foldl_cons, List.foldl_cons, render_pixel_rnd_congr n st fg lf d rnd1 rnd2 h]
    exact foldl_render_pixel_rnd_congr n st fg lf d rnd1 rnd2 h xs _

/-- Helper for C2: the per-day body ignores the random stream when custom colors
are enabled. -/
theorem day_fill_rnd_congr (n : Nat) (st : CountdownState) (fg : Nat) (lf : ℚ)
    (rnd1 rnd2 : Nat → Int) (bs : Int) (h : st.settings.use_custom_colors = true)
    (acc : Buffer × Nat) (d : Int) :
    day_fill n st fg lf rnd1 bs acc d = day_fill n st fg lf rnd2 bs acc d := by
  simp only [day_fill]
  rw [foldl_render_pixel_rnd_congr n st fg lf d rnd1 rnd2 h]

/-- Helper for C2: the day fold ignores the random stream when custom colors are
enabled. -/
theorem foldl_day_fill_rnd_congr (n : Nat) (st : CountdownState) (fg : Nat)
    (lf : ℚ) (rnd1 rnd2 : Nat → Int) (bs : Int)
    (h : st.settings.use_custom_colors = true) :
    ∀ (l : List Int) (acc : Buffer × Nat),
      l.foldl (day_fill n st fg lf rnd1 bs) acc =
        l.foldl (day_fill n st fg lf rnd2 bs) acc
  | [], _ => rfl
  | x :: xs, acc => by
    rw [List.foldl_cons, List.foldl_cons, day_fill_rnd_congr n st fg lf rnd1 rnd2 bs h]
    exact foldl_day_fill_rnd_congr n st fg lf rnd1 rnd2 bs h xs _

/-- C2 amended: `render` is a deterministic function of the `CountdownState`
together with the prior pixel buffer and the random draw stream; when custom
colors are enabled the random stream is not consulted at all, so equal states
and equal prior buffers give equal outputs for any two random streams. -/
theorem c2_amended_deterministic_given_buffer_and_randomness (n : Nat)
    (st : CountdownState) (sp spp : ℚ) (expF : ℚ → ℚ) (rnd1 rnd2 : Nat → Int)
    (buf : Buffer) (h : st.settings.use_custom_colors = true) :
    render n st sp spp expF rnd1 buf = render n st sp spp expF rnd2 buf := by
  by_cases hr : render_mode st = true
  · simp only [render, hr, eq_self_iff_true, if_true, render_countdown]
    rw [foldl_day_fill_rnd_congr n st (flashing_group sp) (lighten_factor sp) rnd1 rnd2
      (countdown_block_size n st.countdown_length) h]
  · simp [render, hr]

/-- Witness for C2's amended theorem: the same mid-countdown render with two
different random streams produces the same buffer. -/
theorem c2_amended_witness :
    render 10 stMid 0 0 (fun _ => 0) (fun _ => 1) (clearBuffer 10) =
      render 10 stMid 0 0 (fun _ => 0) (fun _ => -1) (clearBuffer 10) :=
  c2_amended_deterministic_given_buffer_and_randomness 10 stMid 0 0 (fun _ => 0)
    (fun _ => 1) (fun _ => -1) (clearBuffer 10) (by decide)

/-! ### C9 and C10: one controller tick -/

/-- Advancing the animation phase does not change the configuration. -/
theorem update_animation_phase_settings (st : CountdownState) (p : ℚ) :
    (st.update_animation_phase p).settings = st.settings := rfl

/-- Advancing the flash-swap phase does not change the configuration. -/
theorem update_flash_phase_settings (st : CountdownState) (ms : Int) :
    (st.update_flash_phase ms).settings = st.settings := by
  simp only [CountdownState.update_flash_phase]
  split <;> split <;> rfl

/-- C9: on a tick whose offset-adjusted time lies outside the active window the
buffer is blanked and `render` is not invoked, whatever the sensor reports. -/
theorem c9_outside_window_blanks_without_render (n : Nat) (app : AppState)
    (inp : TickInput)
    (h : is_within_time_range app.countdown_state.settings.start_time
      app.countdown_state.settings.end_time inp.adjusted_hm = false) :
    (main_loop_iteration n app inp).1.buffer = clearBuffer n ∧
    (main_loop_iteration n app inp).2 = TickAction.blanked := by
  have hs : ((app.countdown_state.update_animation_phase inp.new_phase).update_flash_phase
      inp.now_ms).settings = app.countdown_state.settings := by
    rw [update_flash_phase_settings, update_animation_phase_settings]
  constructor <;> simp [main_loop_iteration, hs, h]

/-- A concrete controller state for the tick witnesses: mid-countdown state, a
fresh debouncer, a 10-pixel buffer holding `(5, 5, 5)` everywhere. -/
def exApp : AppState :=
  { countdown_state := stMid, sensor := LightSensor.init 25,
    buffer := List.replicate 10 (5, 5, 5), iteration_count := 0 }

/-- A concrete tick input whose adjusted time 03:00 is outside the 17:00-23:00
window of `exSettings`. -/
def exInpOutside : TickInput :=
  { is_dark := true, adjusted_hm := (3, 0), now_ms := 0, new_phase := 0,
    sin_phase := 0, sin_phase_pi := 0, expF := fun _ => 0, rnd := fun _ => 1,
    fetched_date := none, fetched_settings := none, fetched_base := (0, 0, 0) }

/-- The same tick input moved inside the window (18:00). -/
def exInpInside : TickInput := { exInpOutside with adjusted_hm := (18, 0) }

/-- Witness for C9 at a concrete tick outside the window. -/
theorem c9_outside_window_witness :
    (main_loop_iteration 10 exApp exInpOutside).1.buffer = clearBuffer 10 ∧
    (main_loop_iteration 10 exApp exInpOutside).2 = TickAction.blanked :=
  c9_outside_window_blanks_without_render 10 exApp exInpOutside (by decide)

/-- C10: on a tick inside the window where the debounced flags are both below
threshold, the tick neither renders nor blanks and the buffer is exactly the
previous tick's buffer. -/
theorem c10_below_threshold_leaves_buffer (n : Nat) (app : AppState)
    (inp : TickInput)
    (hin : is_within_time_range app.countdown_state.settings.start_time
      app.countdown_state.settings.end_time inp.adjusted_hm = true)
    (hdark : (app.sensor.update inp.is_dark).2.1 = false)
    (hlight : (app.sensor.update inp.is_dark).2.2 = false) :
    (main_loop_iteration n app inp).1.buffer = app.buffer ∧
    (main_loop_iteration n app inp).2 = TickAction.untouched := by
  have hs : ((app.countdown_state.update_animation_phase inp.new_phase).update_flash_phase
      inp.now_ms).settings = app.countdown_state.settings := by
    rw [update_flash_phase_settings, update_animation_phase_settings]
  constructor <;> simp [main_loop_iteration, hs, hin, hdark, hlight]

/-- Witness for C10 at a concrete tick: fresh debouncer, first dark sample
(counts 1 and 0, both below 25), adjusted time 18:00 inside the window. -/
theorem c10_below_threshold_witness :
    (main_loop_iteration 10 exApp exInpInside).1.buffer = exApp.buffer ∧
    (main_loop_iteration 10 exApp exInpInside).2 = TickAction.untouched :=
  c10_below_threshold_leaves_buffer 10 exApp exInpInside (by decide) (by decide) (by decide)

/-! ### C3: the marker pass -/

/-- `set_pixel` never changes the buffer length. -/
theorem set_pixel_length (n : Nat) (buf : Buffer) (i : Int) (c : Color) :
    (set_pixel n buf i c).length = buf.length := by
  unfold set_pixel
  split <;> simp

/-- Reading back an in-range pixel just written. -/
theorem get_set_pixel_self (n : Nat) (buf : Buffer) (i : Int) (c : Color)
    (hlen : buf.length = n) (hi : 0 ≤ i ∧ i < (n : Int)) :
    get_pixel n (set_pixel n buf i c) i = c := by
  unfold set_pixel get_pixel
  rw [if_pos hi, if_pos hi, List.getD_eq_getElem?_getD,
    List.getElem?_set_self (by omega)]
  rfl

/-- Writing one pixel leaves every other pixel's value unchanged. -/
theorem get_set_pixel_other (n : Nat) (buf : Buffer) (i s : Int) (c : Color)
    (hne : i ≠ s) :
    get_pixel n (set_pixel n buf i c) s = get_pixel n buf s := by
  unfold set_pixel get_pixel
  by_cases hi : 0 ≤ i ∧ i < (n : Int)
  · rw [if_pos hi]
    by_cases hs : 0 ≤ s ∧ s < (n : Int)
    · rw [if_pos hs, if_pos hs, List.getD_eq_getElem?_getD,
        List.getElem?_set_ne (by omega), List.getD_eq_getElem?_getD]
    · rw [if_neg hs, if_neg hs]
  · rw [if_neg hi]

/-- Writing the color `c` anywhere preserves "this pixel reads `c`". -/
theorem get_set_pixel_same_color (n : Nat) (buf : Buffer) (i s : Int) (c : Color)
    (hlen : buf.length = n) (h : get_pixel n buf s = c) :
    get_pixel n (set_pixel n buf i c) s = c := by
  by_cases he : i = s
  · subst he
    by_cases hi : 0 ≤ i ∧ i < (n : Int)
    · exact get_set_pixel_self n buf i c hlen hi
    · unfold set_pixel
      rw [if_neg hi]
      exact h
  · rw [get_set_pixel_other n buf i s c he]
    exact h

/-- A `marker_step` never changes the buffer length. -/
theorem marker_step_length (n : Nat) (st : CountdownState) (bs bmin bmax : Int)
    (buf : Buffer) (blk : Int) :
    (marker_step n st bs bmin bmax buf blk).length = buf.length := by
  simp only [marker_step]
  split
  · exact set_pixel_length n buf _ _
  · rfl

/-- The marker loop only ever writes the marker color, so a pixel already
holding the marker color still holds it afterwards. -/
theorem marker_foldl_preserve (n : Nat) (st : CountdownState) (bs bmin bmax s : Int) :
    ∀ (blocks : List Int) (buf : Buffer), buf.length = n →
      get_pixel n buf s = st.settings.marker_color →
      get_pixel n (blocks.foldl (marker_step n st bs bmin bmax) buf) s =
        st.settings.marker_color
  | [], _, _, h => h
  | blk :: rest, buf, hlen, h => by
    rw [List.foldl_cons]
    refine marker_foldl_preserve n st bs bmin bmax s rest _ ?_ ?_
    · rw [marker_step_length]
      exact hlen
    · simp only [marker_step]
      split
      · exact get_set_pixel_same_color n buf _ s _ hlen h
      · exact h

/-- If some block of the marker loop marks the in-range pixel `s`, then after
the loop `s` holds the marker color. -/
theorem marker_foldl_writes (n : Nat) (st : CountdownState) (bs bmin bmax : Int) :
    ∀ (blocks : List Int) (buf : Buffer) (b : Int), buf.length = n →
      b ∈ blocks →
      (marker_block_start n bs st.settings.from_pi b < bmin ∨
        marker_block_start n bs st.settings.from_pi b ≥ bmax) →
      0 ≤ marker_block_start n bs st.settings.from_pi b →
      marker_block_start n bs st.settings.from_pi b < (n : Int) →
      get_pixel n (blocks.foldl (marker_step n st bs bmin bmax) buf)
        (marker_block_start n bs st.settings.from_pi b) = st.settings.marker_color
  | [], _, _, _, hmem, _, _, _ => absurd hmem (List.not_mem_nil _)
  | blk :: rest, buf, b, hlen, hmem, hcond, hs0, hs1 => by
    rw [List.foldl_cons]
    by_cases hr : b ∈ rest
    · refine marker_foldl_writes n st bs bmin bmax rest _ b ?_ hr hcond hs0 hs1
      rw [marker_step_length]
      exact hlen
    · have hbe : b = blk := by
        rcases List.mem_cons.mp hmem with h1 | h1
        · exact h1
        · exact absurd h1 hr
      subst hbe
      refine marker_foldl_preserve n st bs bmin bmax _ rest _ ?_ ?_
      · rw [marker_step_length]
        exact hlen
      · simp only [marker_step]
        rw [if_pos hcond]
        exact get_set_pixel_self n buf _ _ hlen ⟨hs0, hs1⟩

/-- Membership in the embedded Python `range(a, b)`. -/
theorem mem_rangeAsc {a b x : Int} : x ∈ rangeAsc a b ↔ a ≤ x ∧ x < b := by
  simp only [rangeAsc, List.mem_map, List.mem_range]
  constructor
  · rintro ⟨k, hk, rfl⟩
    omega
  · intro h
    exact ⟨(x - a).toNat, by omega, by omega⟩

/-- After a whole `marker_pass`, every in-range block-start pixel lying outside
the currently drawn span holds the marker color. -/
theorem marker_pass_writes (n : Nat) (st : CountdownState) (bs bmin bmax : Int)
    (buf : Buffer) (b : Int) (hlen : buf.length = n)
    (hb : 0 ≤ b ∧ b < st.countdown_length)
    (hcond : marker_block_start n bs st.settings.from_pi b < bmin ∨
      marker_block_start n bs st.settings.from_pi b ≥ bmax)
    (hs0 : 0 ≤ marker_block_start n bs st.settings.from_pi b)
    (hs1 : marker_block_start n bs st.settings.from_pi b < (n : Int)) :
    get_pixel n (marker_pass n st bs bmin bmax buf)
      (marker_block_start n bs st.settings.from_pi b) = st.settings.marker_color := by
  unfold marker_pass
  exact marker_foldl_writes n st bs bmin bmax (rangeAsc 0 st.countdown_length) buf b
    hlen (mem_rangeAsc.mpr hb) hcond hs0 hs1

/-- The per-pixel body never changes the buffer length. -/
theorem render_pixel_fst_length (n : Nat) (st : CountdownState) (fg : Nat) (lf : ℚ)
    (d : Int) (rnd : Nat → Int) (acc : Buffer × Nat) (p : Int) :
    (render_pixel n st fg lf d rnd acc p).1.length = acc.1.length := by
  simp only [render_pixel]
  split <;> exact set_pixel_length n acc.1 p _

/-- The pixel fold never changes the buffer length. -/
theorem foldl_render_pixel_length (n : Nat) (st : CountdownState) (fg : Nat) (lf : ℚ)
    (d : Int) (rnd : Nat → Int) :
    ∀ (l : List Int) (acc : Buffer × Nat),
      (l.foldl (render_pixel n st fg lf d rnd) acc).1.length = acc.1.length
  | [], _ => rfl
  | p :: rest, acc => by
    rw [List.foldl_cons, foldl_render_pixel_length n st fg lf d rnd rest _,
      render_pixel_fst_length]

/-- The marker loop never changes the buffer length. -/
theorem marker_pass_length (n : Nat) (st : CountdownState) (bs bmin bmax : Int)
    (buf : Buffer) :
    (marker_pass n st bs bmin bmax buf).length = buf.length := by
  unfold marker_pass
  generalize rangeAsc 0 st.countdown_length = blocks
  induction blocks generalizing buf with
  | nil => rfl
  | cons blk rest ih =>
    rw [List.foldl_cons, ih, marker_step_length]

/-- The per-day body never changes the buffer length. -/
theorem day_fill_fst_length (n : Nat) (st : CountdownState) (fg : Nat) (lf : ℚ)
    (rnd : Nat → Int) (bs : Int) (acc : Buffer × Nat) (d : Int) :
    (day_fill n st fg lf rnd bs acc d).1.length = acc.1.length := by
  simp only [day_fill]
  split
  · rw [marker_pass_length, foldl_render_pixel_length]
  · rw [foldl_render_pixel_length]

/-- The day fold never changes the buffer length. -/
theorem foldl_day_fill_length (n : Nat) (st : CountdownState) (fg : Nat) (lf : ℚ)
    (rnd : Nat → Int) (bs : Int) :
    ∀ (l : List Int) (acc : Buffer × Nat),
      (l.foldl (day_fill n st fg lf rnd bs) acc).1.length = acc.1.length
  | [], _ => rfl
  | d :: rest, acc => by
    rw [List.foldl_cons, foldl_day_fill_length n st fg lf rnd bs rest _,
      day_fill_fst_length]

/-- C3 counterexample: at 10 pixels, countdown length 5 and 3 days remaining
(days 5, 4, 3 drawn over pixels 4..9, end-anchored), pixel 8 is the first pixel
of the drawn day-5 block; without markers the fill pass leaves the secondary
color there, but with markers enabled the completed render shows the marker
color at pixel 8 — a marker does overwrite a drawn block's first pixel, so the
claim is false on the code. -/
theorem c3_counterexample_marker_overwrites_drawn_block :
    (5 : Int) ∈ day_range stMidMarker.settings.is_reverse stMidMarker.countdown_length
      stMidMarker.days_remaining ∧
    block_bounds 10 stMidMarker.countdown_length
      (countdown_block_size 10 stMidMarker.countdown_length) 5
      stMidMarker.settings.from_pi = (8, 10) ∧
    get_pixel 10 (render_countdown 10 stMid 0 (fun _ => 1) (clearBuffer 10)) 8 =
      stMid.settings.secondary_color ∧
    get_pixel 10 (render_countdown 10 stMidMarker 0 (fun _ => 1) (clearBuffer 10)) 8 =
      stMidMarker.settings.marker_color ∧
    stMidMarker.settings.marker_color ≠ stMidMarker.settings.secondary_color := by
  refine ⟨by decide, by decide, by decide, by decide, by decide⟩

/-- C3 amended: with markers enabled, the final state of the strip after
`_render_countdown` is governed by the *last* iterated day's marker pass: every
in-range block-start pixel lying outside the last day's span — whether its block
was drawn earlier in this pass or not drawn at all — holds the marker color.
(Only the last-drawn day's own block is protected from markers.) -/
theorem c3_amended_markers_after_full_render (n : Nat) (st : CountdownState)
    (sp : ℚ) (rnd : Nat → Int) (buf : Buffer) (l : List Int) (d b : Int)
    (hlen : buf.length = n)
    (hm : st.settings.with_marker = true)
    (hdr : day_range st.settings.is_reverse st.countdown_length st.days_remaining =
      l ++ [d])
    (hb : 0 ≤ b ∧ b < st.countdown_length)
    (hcond : marker_block_start n (countdown_block_size n st.countdown_length)
        st.settings.from_pi b <
      (block_bounds n st.countdown_length (countdown_block_size n st.countdown_length)
        d st.settings.from_pi).1 ∨
      marker_block_start n (countdown_block_size n st.countdown_length)
        st.settings.from_pi b ≥
      (block_bounds n st.countdown_length (countdown_block_size n st.countdown_length)
        d st.settings.from_pi).2)
    (hs0 : 0 ≤ marker_block_start n (countdown_block_size n st.countdown_length)
      st.settings.from_pi b)
    (hs1 : marker_block_start n (countdown_block_size n st.countdown_length)
      st.settings.from_pi b < (n : Int)) :
    get_pixel n (render_countdown n st sp rnd buf)
      (marker_block_start n (countdown_block_size n st.countdown_length)
        st.settings.from_pi b) = st.settings.marker_color := by
  simp only [render_countdown]
  rw [hdr, List.foldl_append, List.foldl_cons, List.foldl_nil]
  simp only [day_fill, hm, eq_self_iff_true, if_true]
  refine marker_pass_writes n st (countdown_block_size n st.countdown_length) _ _ _ b
    ?_ hb hcond hs0 hs1
  rw [foldl_render_pixel_length, foldl_day_fill_length]
  exact hlen

/-- Witness for C3's amended theorem at the concrete marker fixture: the day
range is `[5, 4] ++ [3]`, block 0 starts at pixel 8, outside the final day-3
span `[4, 6)`, and the completed render holds the marker color there. -/
theorem c3_amended_witness :
    get_pixel 10 (render_countdown 10 stMidMarker 0 (fun _ => 1) (clearBuffer 10))
      (marker_block_start 10 (countdown_block_size 10 stMidMarker.countdown_length)
        stMidMarker.settings.from_pi 0) = stMidMarker.settings.marker_color :=
  c3_amended_markers_after_full_render 10 stMidMarker 0 (fun _ => 1) (clearBuffer 10)
    [5, 4] 3 0 (by decide) (by decide) (by decide) (by decide) (by decide)
    (by decide) (by decide)

/-! ### C4: refresh of an invalid (zero countdown length) configuration -/

/-- A fetched configuration whose countdown start equals the target date, so the
derived countdown length is `|days_between| = 0`. -/
def exSettingsZeroLength : EventSettings :=
  { exSettings with start_from_day := (2025, 12, 25) }

/-- The valid controller state in effect before the refresh (5-day countdown). -/
def prevStateC4 : CountdownState := CountdownState.new (2025, 12, 20) exSettings (0, 0, 0) 0

/-- C4: `_refresh_settings` keeps the previous `CountdownState` only when a
fetch *fails*; a successfully fetched configuration is installed without any
validation of the derived countdown length.  On the target day with
`start_from_day = important_date` the installed state has
`countdown_length = 0` and `days_remaining = 0`, so `render_mode` selects
countdown mode, whose first step `block_size = num_pixels // countdown_length`
raises `ZeroDivisionError` in Python on every subsequent tick — the
configuration is not rejected as the claim (and the spec's error-handling
design) requires. -/
theorem c4_zero_length_config_installed :
    (refresh_settings prevStateC4 (some (2025, 12, 25)) (some exSettingsZeroLength)
      (0, 0, 0) 0).countdown_length = 0 ∧
    (refresh_settings prevStateC4 (some (2025, 12, 25)) (some exSettingsZeroLength)
      (0, 0, 0) 0).days_remaining = 0 ∧
    refresh_settings prevStateC4 (some (2025, 12, 25)) (some exSettingsZeroLength)
      (0, 0, 0) 0 ≠ prevStateC4 ∧
    render_mode (refresh_settings prevStateC4 (some (2025, 12, 25))
      (some exSettingsZeroLength) (0, 0, 0) 0) = true ∧
    refresh_settings prevStateC4 none (some exSettingsZeroLength) (0, 0, 0) 0 =
      prevStateC4 ∧
    refresh_settings prevStateC4 (some (2025, 12, 25)) none (0, 0, 0) 0 =
      prevStateC4 := by
  refine ⟨by decide, by decide, by decide, by decide, by decide, by decide⟩

end DaysUntil
